import Mathlib

/- Verification of the connection core of the LG TV integration driver
   (src/lg.py): the connect critical section, lifecycle-event emission, the
   bounded reconnect loop, the command buffer and its replay, the retry
   wrapper around outbound commands, the state snapshot differ, and the
   wake-on-LAN packet builder.  Each definition is a shallow embedding of
   the corresponding source function; line numbers refer to src/lg.py. -/

namespace LGTV

/-- Source constant DEFAULT_TIMEOUT (line 57). -/
def DEFAULT_TIMEOUT : Nat := 5

/-- Source constant BUFFER_LIFETIME (line 58), in time-units (seconds). -/
def BUFFER_LIFETIME : Int := 30

/-- Source constant CONNECTION_RETRIES (line 59). -/
def CONNECTION_RETRIES : Nat := 20

/-- Source constant CONNECT_LOCK_TIMEOUT (line 60), in time-units. -/
def CONNECT_LOCK_TIMEOUT : Nat := 20

/-- Source constant LIVE_TV_APP_ID (const.py). -/
def LIVE_TV_APP_ID : String := "com.webos.app.livetv"

/-- Status codes of the ucapi library, restricted to those the driver
returns from the functions under study. -/
inductive UcStatus
  | OK
  | BAD_REQUEST
  | NOT_FOUND
  | SERVICE_UNAVAILABLE
deriving DecidableEq, Repr

/-- Media-player states of the ucapi library used by the driver. -/
inductive UcState
  | OFF
  | ON
  | PLAYING
  | PAUSED
  | STANDBY
  | UNKNOWN
deriving DecidableEq, Repr

/-- Media types used by the driver. -/
inductive MediaTy
  | VIDEO
  | TVSHOW
deriving DecidableEq, Repr

/- ------------------------------------------------------------------ -/
/- LGDevice.connect: lifecycle emission and lock release (lines 544-608) -/
/- ------------------------------------------------------------------ -/

/-- Outcome of the body of one LGDevice.connect attempt that entered the
critical section (lines 544-599): the transport connect and state load
succeed; the connect returns but yields an unusable session (line 562,
which releases the lock early and raises WebOsTvCommandError, caught by
the WEBOSTV handler); a transport-level WEBOSTV exception; any other
exception (generic handler, line 590); or cancellation of the task
(CancelledError derives from BaseException and is caught by neither
handler, but the finally block still runs). -/
inductive ConnectOutcome
  | success
  | unusableSession
  | transportError
  | unknownError
  | cancelled
deriving DecidableEq, Repr

/-- Observable effects of one connect attempt. -/
structure ConnectEffects where
  locked : Bool
  connectedEvents : Nat
  available : Bool
  connectTask : Bool
  raised : Bool
deriving DecidableEq, Repr

/-- Effects of the try/except part of LGDevice.connect (lines 544-599),
starting from the point where the connect lock has just been acquired
(locked = true), given the prior availability flag and whether a
reconnect-loop task handle already exists.  The finally block is applied
separately by connect_finally. -/
def connect_body (o : ConnectOutcome) (avail0 task0 : Bool) : ConnectEffects :=
  match o with
  | .success =>
      { locked := true, connectedEvents := 0, available := true,
        connectTask := task0, raised := false }
  | .unusableSession =>
      { locked := false, connectedEvents := 0, available := false,
        connectTask := true, raised := false }
  | .transportError =>
      { locked := true, connectedEvents := 0, available := false,
        connectTask := true, raised := false }
  | .unknownError =>
      { locked := true, connectedEvents := 0, available := false,
        connectTask := true, raised := false }
  | .cancelled =>
      { locked := true, connectedEvents := 0, available := avail0,
        connectTask := task0, raised := true }

/-- The finally block of LGDevice.connect (lines 600-608): emit the
CONNECTED lifecycle event unconditionally, then release the lock, with a
RuntimeError from an already-released lock swallowed. -/
def connect_finally (e : ConnectEffects) : ConnectEffects :=
  { e with connectedEvents := e.connectedEvents + 1, locked := false }

/-- One full connect attempt past the entry guard: body then finally. -/
def connect_run (o : ConnectOutcome) (avail0 task0 : Bool) : ConnectEffects :=
  connect_finally (connect_body o avail0 task0)

/- ------------------------------------------------------------------ -/
/- LGDevice._connect_loop (lines 490-527)                               -/
/- ------------------------------------------------------------------ -/

/-- Result of one connect attempt inside the reconnect loop (lines
497-508): connect succeeded and the TV reports on (break); connect
succeeded but the TV is still off (falls through to the retry counting);
connect raised an exception (warning logged, falls through); the task was
cancelled (break). -/
inductive AttemptResult
  | successOn
  | successOff
  | failure
  | cancelled
deriving DecidableEq, Repr

/-- State after the reconnect loop exits, reflecting the epilogue at lines
525-527: the wake-on-LAN retry flag cleared, the connect-task handle
cleared, and the reconnect counter reset to zero. -/
structure LoopPost where
  attempts : Nat
  reconnect_retry : Nat
  connect_task : Bool
  retry_wakeonlan : Bool
deriving DecidableEq, Repr

/-- The while-loop of LGDevice._connect_loop, driven by a list giving the
result of each successive connect attempt.  Returns the number of connect
attempts performed before the loop exits, or none when the list is
exhausted before the loop exits.  On a non-breaking attempt the counter is
incremented and the loop breaks as soon as it exceeds CONNECTION_RETRIES
(line 511). -/
def connect_loop_go (retry : Nat) : List AttemptResult → Option Nat
  | [] => none
  | r :: rest =>
    match r with
    | .successOn => some 1
    | .cancelled => some 1
    | .successOff | .failure =>
      if CONNECTION_RETRIES < retry + 1 then some 1
      else
        match connect_loop_go (retry + 1) rest with
        | none => none
        | some n => some (n + 1)

/-- A full run of LGDevice._connect_loop from a given starting value of the
reconnect counter: the while-loop followed by the unconditional epilogue
(lines 525-527). -/
def connect_loop_run (retry0 : Nat) (rs : List AttemptResult) : Option LoopPost :=
  match connect_loop_go retry0 rs with
  | none => none
  | some n =>
      some { attempts := n, reconnect_retry := 0,
             connect_task := false, retry_wakeonlan := false }

lemma connect_loop_go_all_fail :
    ∀ (rs : List AttemptResult) (retry : Nat),
      (∀ r ∈ rs, r = AttemptResult.failure) →
      retry ≤ CONNECTION_RETRIES →
      CONNECTION_RETRIES + 1 - retry ≤ rs.length →
      connect_loop_go retry rs = some (CONNECTION_RETRIES + 1 - retry) := by
  intro rs
  induction rs with
  | nil =>
    intro retry _ hle hlen
    exfalso
    simp only [List.length_nil, CONNECTION_RETRIES] at hle hlen
    omega
  | cons r rest ih =>
    intro retry hall hle hlen
    have hr : r = AttemptResult.failure := hall r (by simp)
    subst hr
    by_cases hc : CONNECTION_RETRIES < retry + 1
    · have hretry : retry = CONNECTION_RETRIES := by omega
      subst hretry
      simp [connect_loop_go, hc]
    · have hrec : connect_loop_go (retry + 1) rest
          = some (CONNECTION_RETRIES + 1 - (retry + 1)) := by
        refine ih (retry + 1) (fun x hx => hall x (by simp [hx])) (by omega) ?_
        simp only [List.length_cons] at hlen
        omega
      simp only [connect_loop_go, hc, if_false, hrec]
      have : CONNECTION_RETRIES + 1 - (retry + 1) + 1 = CONNECTION_RETRIES + 1 - retry := by
        omega
      rw [this]

/-- Claim C3: in a run of the reconnect loop in which every connect attempt
fails, the loop terminates after the counter exceeds CONNECTION_RETRIES,
having made exactly CONNECTION_RETRIES + 1 attempts; and on every loop
exit the reconnect counter is reset to zero, the connect-task handle is
cleared, and the wake-on-LAN retry flag is cleared, so no further
automatic retries occur until an external trigger starts a new loop. -/
theorem connect_loop_retry_ceiling :
    (∀ rs : List AttemptResult,
      (∀ r ∈ rs, r = AttemptResult.failure) →
      CONNECTION_RETRIES + 1 ≤ rs.length →
      connect_loop_run 0 rs
        = some { attempts := CONNECTION_RETRIES + 1, reconnect_retry := 0,
                 connect_task := false, retry_wakeonlan := false })
    ∧ (∀ (retry0 : Nat) (rs : List AttemptResult) (post : LoopPost),
        connect_loop_run retry0 rs = some post →
        post.reconnect_retry = 0 ∧ post.connect_task = false
          ∧ post.retry_wakeonlan = false) := by
  constructor
  · intro rs hall hlen
    have h := connect_loop_go_all_fail rs 0 hall (by omega) (by omega)
    simp only [connect_loop_run, h, Nat.sub_zero]
  · intro retry0 rs post h
    unfold connect_loop_run at h
    cases hgo : connect_loop_go retry0 rs with
    | none => rw [hgo] at h; exact absurd h (by simp)
    | some n =>
      rw [hgo] at h
      have : post = { attempts := n, reconnect_retry := 0,
                      connect_task := false, retry_wakeonlan := false } := by
        exact (Option.some_injective _ h).symm
      subst this
      exact ⟨rfl, rfl, rfl⟩

/-- Witness for connect_loop_retry_ceiling at concrete inputs: a run of 21
consecutive failures, and a run ending by a successful attempt. -/
theorem connect_loop_retry_ceiling_witness :
    connect_loop_run 0 (List.replicate 21 AttemptResult.failure)
      = some { attempts := 21, reconnect_retry := 0,
               connect_task := false, retry_wakeonlan := false }
    ∧ (({ attempts := 1, reconnect_retry := 0, connect_task := false,
          retry_wakeonlan := false } : LoopPost).reconnect_retry = 0
        ∧ ({ attempts := 1, reconnect_retry := 0, connect_task := false,
             retry_wakeonlan := false } : LoopPost).connect_task = false
        ∧ ({ attempts := 1, reconnect_retry := 0, connect_task := false,
             retry_wakeonlan := false } : LoopPost).retry_wakeonlan = false) :=
  ⟨by
    have h := connect_loop_retry_ceiling.1 (List.replicate 21 AttemptResult.failure)
      (fun r hr => List.eq_of_mem_replicate hr)
      (by simp [CONNECTION_RETRIES])
    simpa [CONNECTION_RETRIES] using h,
   connect_loop_retry_ceiling.2 0 [AttemptResult.successOn]
     { attempts := 1, reconnect_retry := 0, connect_task := false,
       retry_wakeonlan := false } (by decide)⟩

/-- Claim C2: every connect attempt that enters the critical section emits
the CONNECTED lifecycle event exactly once, in the finally path, whatever
the outcome (success, transport error, unusable session, unknown error,
or cancellation), and the connect lock is released on every such exit
path. -/
theorem connect_emits_connected_once :
    ∀ (o : ConnectOutcome) (avail0 task0 : Bool),
      (connect_run o avail0 task0).connectedEvents = 1
      ∧ (connect_run o avail0 task0).locked = false := by
  intro o avail0 task0
  cases o <;> simp [connect_run, connect_finally, connect_body]

/- ------------------------------------------------------------------ -/
/- LGDevice.connect entry guard and critical section (lines 529-546)    -/
/- ------------------------------------------------------------------ -/

/-- Result of the connect entry guard: the call returns immediately as a
no-op, or it proceeds into the critical section. -/
inductive EntryResult
  | noop
  | entered
deriving DecidableEq, Repr

/-- The entry guard of LGDevice.connect (lines 532-546): when the lock is
held and was taken at most CONNECT_LOCK_TIMEOUT ago, the call returns
immediately as a no-op (line 543); when it is held for longer, the lock
is force-released (line 539) and immediately re-acquired by this call;
when it is free it is simply acquired.  Returns the entry result together
with the lock flag and lock-acquisition time after the entry.  The whole
guard suspends nowhere, so it is modelled as one atomic action. -/
def connect_entry (locked : Bool) (lockTime now : Nat) :
    EntryResult × Bool × Nat :=
  if locked then
    if CONNECT_LOCK_TIMEOUT < now - lockTime then (EntryResult.entered, true, now)
    else (EntryResult.noop, true, lockTime)
  else (EntryResult.entered, true, now)

/-- Progress of one connect() call: not yet at the guard, inside the
guarded critical section, or finished (either as a no-op or after the
finally block released the lock). -/
inductive Phase
  | idle
  | inCS
  | done
deriving DecidableEq, Repr

/-- Interleaving state of one device handle: the connect lock, the time of
its acquisition, the current time, and the phase of each pending
connect() call. -/
structure SysState where
  locked : Bool
  lockTime : Nat
  now : Nat
  threads : List Phase
deriving DecidableEq, Repr

/-- Apply the connect entry guard on behalf of call i. -/
def applyEntry (s : SysState) (i : Nat) : SysState :=
  let r := connect_entry s.locked s.lockTime s.now
  { s with locked := r.2.1, lockTime := r.2.2,
           threads := s.threads.set i
             (if r.1 = EntryResult.noop then Phase.done else Phase.inCS) }

/-- Number of connect calls currently inside the critical section. -/
def countInCS : List Phase → Nat
  | [] => 0
  | Phase.inCS :: rest => countInCS rest + 1
  | _ :: rest => countInCS rest

/-- Interleaving semantics of connect and disconnect calls on one handle:
time may pass; an idle connect call runs the entry guard; a call inside
the critical section finishes, its finally block releasing the lock
(lines 600-608); a disconnect releases the lock if held (lines 641-645). -/
inductive Step : SysState → SysState → Prop
  | tick (s : SysState) (d : Nat) : Step s { s with now := s.now + d }
  | entry (s : SysState) (i : Nat) (h : s.threads.get? i = some Phase.idle) :
      Step s (applyEntry s i)
  | finish (s : SysState) (i : Nat) (h : s.threads.get? i = some Phase.inCS) :
      Step s { s with locked := false, threads := s.threads.set i Phase.done }
  | disconnectRelease (s : SysState) : Step s { s with locked := false }

/-- Restriction of Step under which mutual exclusion does hold: no entry
guard runs while the lock has been held for more than
CONNECT_LOCK_TIMEOUT (so the force-release path never fires), and no
disconnect releases the lock while a connect attempt is inside the
critical section. -/
inductive SafeStep : SysState → SysState → Prop
  | tick (s : SysState) (d : Nat) : SafeStep s { s with now := s.now + d }
  | entry (s : SysState) (i : Nat) (h : s.threads.get? i = some Phase.idle)
      (hfresh : s.locked = true → s.now - s.lockTime ≤ CONNECT_LOCK_TIMEOUT) :
      SafeStep s (applyEntry s i)
  | finish (s : SysState) (i : Nat) (h : s.threads.get? i = some Phase.inCS) :
      SafeStep s { s with locked := false, threads := s.threads.set i Phase.done }
  | disconnectRelease (s : SysState) (h : countInCS s.threads = 0) :
      SafeStep s { s with locked := false }

lemma countInCS_cons (x : Phase) (xs : List Phase) :
    countInCS (x :: xs) = countInCS xs + (if x = Phase.inCS then 1 else 0) := by
  cases x <;> simp [countInCS]

lemma countInCS_set (l : List Phase) :
    ∀ (i : Nat) (a b : Phase), l.get? i = some a →
      countInCS (l.set i b) + (if a = Phase.inCS then 1 else 0)
        = countInCS l + (if b = Phase.inCS then 1 else 0) := by
  induction l with
  | nil => intro i a b h; simp at h
  | cons x xs ih =>
    intro i a b h
    cases i with
    | zero =>
      simp only [List.get?] at h
      injection h with h
      subst h
      simp only [List.set, countInCS_cons]
      omega
    | succ n =>
      simp only [List.get?] at h
      have hx := ih n a b h
      simp only [List.set, countInCS_cons]
      omega

lemma countInCS_pos (l : List Phase) :
    ∀ i, l.get? i = some Phase.inCS → 1 ≤ countInCS l := by
  induction l with
  | nil => intro i h; simp at h
  | cons x xs ih =>
    intro i h
    cases i with
    | zero =>
      simp only [List.get?] at h
      injection h with h
      subst h
      simp [countInCS_cons]
    | succ n =>
      simp only [List.get?] at h
      have := ih n h
      simp [countInCS_cons]
      omega

/-- Invariant maintained by safe steps: at most one call is inside the
critical section, and none is when the lock is free. -/
def LockInv (s : SysState) : Prop :=
  countInCS s.threads ≤ 1 ∧ (s.locked = false → countInCS s.threads = 0)

lemma applyEntry_fresh (lt nw : Nat) (th : List Phase) (i : Nat)
    (hfr : nw - lt ≤ CONNECT_LOCK_TIMEOUT) :
    applyEntry { locked := true, lockTime := lt, now := nw, threads := th } i
      = { locked := true, lockTime := lt, now := nw,
          threads := th.set i Phase.done } := by
  have h2 : ¬ CONNECT_LOCK_TIMEOUT < nw - lt := by omega
  simp [applyEntry, connect_entry, h2]

lemma applyEntry_free (lt nw : Nat) (th : List Phase) (i : Nat) :
    applyEntry { locked := false, lockTime := lt, now := nw, threads := th } i
      = { locked := true, lockTime := nw, now := nw,
          threads := th.set i Phase.inCS } := by
  simp [applyEntry, connect_entry]

lemma safeStep_inv {s t : SysState} (h : SafeStep s t) (hs : LockInv s) :
    LockInv t := by
  obtain ⟨lk, lt, nw, th⟩ := s
  obtain ⟨h1, h2⟩ := hs
  simp only [LockInv] at h1 h2 ⊢
  cases h with
  | tick d => exact ⟨h1, h2⟩
  | entry i hg hfresh =>
    cases lk with
    | true =>
      rw [applyEntry_fresh lt nw th i (hfresh rfl)]
      have hcount := countInCS_set th i Phase.idle Phase.done hg
      have hc2 : countInCS (th.set i Phase.done) = countInCS th := by
        simpa using hcount
      refine ⟨?_, ?_⟩
      · show countInCS (th.set i Phase.done) ≤ 1
        omega
      · intro hfalse
        exact absurd hfalse (by simp)
    | false =>
      rw [applyEntry_free lt nw th i]
      have hzero := h2 rfl
      have hcount := countInCS_set th i Phase.idle Phase.inCS hg
      have hc2 : countInCS (th.set i Phase.inCS) = countInCS th + 1 := by
        simpa using hcount
      refine ⟨?_, ?_⟩
      · show countInCS (th.set i Phase.inCS) ≤ 1
        omega
      · intro hfalse
        exact absurd hfalse (by simp)
  | finish i hg =>
    have hpos := countInCS_pos th i hg
    have hcount := countInCS_set th i Phase.inCS Phase.done hg
    have hc2 : countInCS (th.set i Phase.done) + 1 = countInCS th := by
      simpa using hcount
    refine ⟨?_, ?_⟩
    · show countInCS (th.set i Phase.done) ≤ 1
      omega
    · intro _
      show countInCS (th.set i Phase.done) = 0
      omega
  | disconnectRelease hcs =>
    exact ⟨h1, fun _ => hcs⟩

/-- Claim C1, counterexample to the claim as stated: from two pending
connect() calls, the first enters the critical section, 21 time-units
pass, and the second call observes the lock held for longer than
CONNECT_LOCK_TIMEOUT, force-releases it and enters — reaching a state in
which two connect attempts are inside the guarded critical section at the
same instant. -/
theorem connect_mutex_counterexample :
    Relation.ReflTransGen Step
      { locked := false, lockTime := 0, now := 0,
        threads := [Phase.idle, Phase.idle] }
      { locked := true, lockTime := 21, now := 21,
        threads := [Phase.inCS, Phase.inCS] }
    ∧ countInCS [Phase.inCS, Phase.inCS] = 2 := by
  constructor
  · have h1 : Step
        { locked := false, lockTime := 0, now := 0,
          threads := [Phase.idle, Phase.idle] }
        { locked := true, lockTime := 0, now := 0,
          threads := [Phase.inCS, Phase.idle] } :=
      Step.entry
        { locked := false, lockTime := 0, now := 0,
          threads := [Phase.idle, Phase.idle] } 0 rfl
    have h2 : Step
        { locked := true, lockTime := 0, now := 0,
          threads := [Phase.inCS, Phase.idle] }
        { locked := true, lockTime := 0, now := 21,
          threads := [Phase.inCS, Phase.idle] } :=
      Step.tick
        { locked := true, lockTime := 0, now := 0,
          threads := [Phase.inCS, Phase.idle] } 21
    have h3 : Step
        { locked := true, lockTime := 0, now := 21,
          threads := [Phase.inCS, Phase.idle] }
        { locked := true, lockTime := 21, now := 21,
          threads := [Phase.inCS, Phase.inCS] } :=
      Step.entry
        { locked := true, lockTime := 0, now := 21,
          threads := [Phase.inCS, Phase.idle] } 1 rfl
    exact Relation.ReflTransGen.head h1
      (Relation.ReflTransGen.head h2 (Relation.ReflTransGen.single h3))
  · rfl

/-- Claim C1, amended: for every sequence of connect/disconnect calls on
one handle, at most one connect attempt is inside the guarded critical
section at any instant, provided no entry guard ever observes the lock
held for more than CONNECT_LOCK_TIMEOUT and no disconnect releases the
lock while an attempt is inside the critical section; a connect() call
made while another attempt holds the lock for at most CONNECT_LOCK_TIMEOUT
returns immediately as a no-op, leaving the lock state unchanged; and a
connect() call observing the lock held for more than CONNECT_LOCK_TIMEOUT
force-releases it and takes it over (which is what makes overlapping
critical sections possible in the unrestricted semantics). -/
theorem connect_mutex_amended :
    (∀ init s : SysState,
        init.locked = false → countInCS init.threads = 0 →
        Relation.ReflTransGen SafeStep init s → countInCS s.threads ≤ 1)
    ∧ (∀ lockTime now : Nat, now - lockTime ≤ CONNECT_LOCK_TIMEOUT →
        connect_entry true lockTime now = (EntryResult.noop, true, lockTime))
    ∧ (∀ lockTime now : Nat, CONNECT_LOCK_TIMEOUT < now - lockTime →
        connect_entry true lockTime now = (EntryResult.entered, true, now)) := by
  refine ⟨?_, ?_, ?_⟩
  · intro init s h1 h2 hreach
    have hinv : LockInv s := by
      induction hreach with
      | refl => exact ⟨by omega, fun _ => h2⟩
      | tail _ hbc ih => exact safeStep_inv hbc ih
    exact hinv.1
  · intro lockTime now h
    have : ¬ CONNECT_LOCK_TIMEOUT < now - lockTime := by omega
    simp [connect_entry, this]
  · intro lockTime now h
    simp [connect_entry, h]

/-- Witness for connect_mutex_amended at concrete inputs. -/
theorem connect_mutex_amended_witness :
    countInCS ({ locked := false, lockTime := 0, now := 0,
                 threads := [Phase.idle] } : SysState).threads ≤ 1
    ∧ connect_entry true 0 5 = (EntryResult.noop, true, 0)
    ∧ connect_entry true 0 30 = (EntryResult.entered, true, 30) :=
  ⟨connect_mutex_amended.1
      { locked := false, lockTime := 0, now := 0, threads := [Phase.idle] }
      { locked := false, lockTime := 0, now := 0, threads := [Phase.idle] }
      rfl rfl Relation.ReflTransGen.refl,
   connect_mutex_amended.2.1 0 5 (by decide),
   connect_mutex_amended.2.2 0 30 (by decide)⟩

/- ------------------------------------------------------------------ -/
/- Command buffer replay: LGDevice._run_buffered_commands (459-488)     -/
/- ------------------------------------------------------------------ -/

/-- A buffered command entry: its capture timestamp (the dict key, written
at lines 121, 974, 1123-1133 and 1210-1214) and an identifier standing
for the deferred function call. -/
abbrev BufEntry := Int × Nat

/-- Ascending-timestamp comparison used when the buffered-command dict is
iterated in sorted key order (line 465). -/
def bufLE (a b : BufEntry) : Prop := a.1 ≤ b.1

instance : DecidableRel bufLE := fun a b => inferInstanceAs (Decidable (a.1 ≤ b.1))

instance : IsTotal BufEntry bufLE := ⟨fun a b => le_total a.1 b.1⟩

instance : IsTrans BufEntry bufLE := ⟨fun _ _ _ => le_trans⟩

/-- The sorted snapshot of the buffer taken at line 465. -/
def sortBuffer (l : List BufEntry) : List BufEntry := List.insertionSort bufLE l

/-- One iteration of the replay loop for the entry encountered: whether
its function was invoked (line 469: age at most BUFFER_LIFETIME), whether
the invocation raised (the exception is caught at line 479 and the entry
is not re-buffered), and the buffer contents immediately after the entry
was deleted (line 468, which happens before any invocation). -/
structure ReplayStep where
  entry : BufEntry
  invoked : Bool
  raised : Bool
  remaining : List BufEntry
deriving DecidableEq, Repr

/-- The replay iteration of _run_buffered_commands (lines 464-488) over
the sorted snapshot, at a fixed clock value, with a predicate telling
which invocations raise. -/
def replaySteps (now : Int) (raises : BufEntry → Bool) :
    List BufEntry → List ReplayStep
  | [] => []
  | e :: rest =>
    let fresh := decide (now - e.1 ≤ BUFFER_LIFETIME)
    { entry := e, invoked := fresh, raised := fresh && raises e,
      remaining := rest } :: replaySteps now raises rest

/-- LGDevice._run_buffered_commands: sort the buffer by capture timestamp
and replay it entry by entry. -/
def run_buffered_commands (now : Int) (raises : BufEntry → Bool)
    (buffer : List BufEntry) : List ReplayStep :=
  replaySteps now raises (sortBuffer buffer)

/-- Entries whose deferred function was actually invoked during a drain. -/
def invokedEntries (now : Int) (raises : BufEntry → Bool)
    (buffer : List BufEntry) : List BufEntry :=
  ((run_buffered_commands now raises buffer).filter
    (fun st => st.invoked)).map (fun st => st.entry)

lemma replaySteps_map_entry (now : Int) (raises : BufEntry → Bool) :
    ∀ l : List BufEntry,
      (replaySteps now raises l).map (fun st => st.entry) = l := by
  intro l
  induction l with
  | nil => rfl
  | cons e rest ih => simp [replaySteps, ih]

lemma replaySteps_invoked (now : Int) (raises : BufEntry → Bool) :
    ∀ l : List BufEntry,
      ((replaySteps now raises l).filter (fun st => st.invoked)).map
          (fun st => st.entry)
        = l.filter (fun e => decide (now - e.1 ≤ BUFFER_LIFETIME)) := by
  intro l
  induction l with
  | nil => rfl
  | cons e rest ih =>
    by_cases hf : now - e.1 ≤ BUFFER_LIFETIME
    · simp [replaySteps, List.filter, hf, ih]
    · simp [replaySteps, List.filter, hf, ih]

lemma invokedEntries_eq (now : Int) (raises : BufEntry → Bool)
    (buffer : List BufEntry) :
    invokedEntries now raises buffer
      = (sortBuffer buffer).filter (fun e => decide (now - e.1 ≤ BUFFER_LIFETIME)) :=
  replaySteps_invoked now raises (sortBuffer buffer)

lemma mem_sortBuffer {e : BufEntry} {l : List BufEntry} :
    e ∈ sortBuffer l ↔ e ∈ l :=
  (List.perm_insertionSort bufLE l).mem_iff

lemma replaySteps_not_mem_remaining (now : Int) (raises : BufEntry → Bool) :
    ∀ l : List BufEntry, (l.map Prod.fst).Nodup →
      ∀ st ∈ replaySteps now raises l, st.entry ∉ st.remaining := by
  intro l
  induction l with
  | nil => intro _ st hst; simp [replaySteps] at hst
  | cons e rest ih =>
    intro hnd st hst
    have hnd2 : (e.1 :: rest.map Prod.fst).Nodup := by simpa using hnd
    simp only [replaySteps, List.mem_cons] at hst
    rcases hst with h | h
    · subst h
      intro hmem
      exact (List.nodup_cons.mp hnd2).1 (List.mem_map_of_mem Prod.fst hmem)
    · exact ih (List.nodup_cons.mp hnd2).2 st h

/-- Claim C4: during replay every buffered entry is encountered (hence
removed from the buffer); an entry whose capture timestamp is more than
BUFFER_LIFETIME in the past at the fixed replay clock is never invoked,
and an entry whose age is at most the lifetime is invoked. -/
theorem buffered_lifetime_drop :
    ∀ (now : Int) (raises : BufEntry → Bool) (buffer : List BufEntry)
      (e : BufEntry), e ∈ buffer →
      e ∈ (run_buffered_commands now raises buffer).map (fun st => st.entry)
      ∧ (BUFFER_LIFETIME < now - e.1 → e ∉ invokedEntries now raises buffer)
      ∧ (now - e.1 ≤ BUFFER_LIFETIME → e ∈ invokedEntries now raises buffer) := by
  intro now raises buffer e hmem
  refine ⟨?_, ?_, ?_⟩
  · rw [run_buffered_commands, replaySteps_map_entry]
    exact mem_sortBuffer.mpr hmem
  · intro hold hmemInv
    rw [invokedEntries_eq, List.mem_filter] at hmemInv
    have := of_decide_eq_true hmemInv.2
    omega
  · intro hfresh
    rw [invokedEntries_eq, List.mem_filter]
    exact ⟨mem_sortBuffer.mpr hmem, decide_eq_true hfresh⟩

/-- Witness for buffered_lifetime_drop: with the clock at 40, the entry
captured at time 0 (age 40 > 30) is dropped without invocation and the
entry captured at time 40 is invoked. -/
theorem buffered_lifetime_drop_witness :
    (((0 : Int), (0 : Nat))
        ∉ invokedEntries 40 (fun _ => false) [((0 : Int), (0 : Nat)), ((40 : Int), (1 : Nat))])
    ∧ (((40 : Int), (1 : Nat))
        ∈ invokedEntries 40 (fun _ => false) [((0 : Int), (0 : Nat)), ((40 : Int), (1 : Nat))]) :=
  ⟨(buffered_lifetime_drop 40 (fun _ => false)
      [((0 : Int), (0 : Nat)), ((40 : Int), (1 : Nat))] ((0 : Int), (0 : Nat))
      (by decide)).2.1 (by decide),
   (buffered_lifetime_drop 40 (fun _ => false)
      [((0 : Int), (0 : Nat)), ((40 : Int), (1 : Nat))] ((40 : Int), (1 : Nat))
      (by decide)).2.2 (by decide)⟩

/-- Claim C5: a drain of the command buffer processes entries in ascending
capture-timestamp order, every entry is removed from the buffer before
its attempted execution (so a raising entry is never re-buffered), and
each buffered entry is attempted at most once per drain. -/
theorem buffered_replay_once_ordered :
    ∀ (now : Int) (raises : BufEntry → Bool) (buffer : List BufEntry),
      (buffer.map Prod.fst).Nodup →
      List.Sorted bufLE
        ((run_buffered_commands now raises buffer).map (fun st => st.entry))
      ∧ (∀ st ∈ run_buffered_commands now raises buffer,
          st.entry ∉ st.remaining)
      ∧ ((run_buffered_commands now raises buffer).map
          (fun st => st.entry)).Nodup := by
  intro now raises buffer hnd
  have hsortnd : ((sortBuffer buffer).map Prod.fst).Nodup := by
    have hperm : List.Perm ((sortBuffer buffer).map Prod.fst) (buffer.map Prod.fst) :=
      (List.perm_insertionSort bufLE buffer).map Prod.fst
    exact hperm.nodup_iff.mpr hnd
  refine ⟨?_, ?_, ?_⟩
  · rw [run_buffered_commands, replaySteps_map_entry]
    exact List.sorted_insertionSort bufLE buffer
  · exact replaySteps_not_mem_remaining now raises (sortBuffer buffer) hsortnd
  · rw [run_buffered_commands, replaySteps_map_entry]
    exact hsortnd.of_map Prod.fst

/-- Witness for buffered_replay_once_ordered on a concrete two-entry
buffer inserted out of order. -/
theorem buffered_replay_once_ordered_witness :
    List.Sorted bufLE
      ((run_buffered_commands 10 (fun _ => true)
        [((5 : Int), (1 : Nat)), ((0 : Int), (0 : Nat))]).map (fun st => st.entry))
    ∧ (∀ st ∈ run_buffered_commands 10 (fun _ => true)
        [((5 : Int), (1 : Nat)), ((0 : Int), (0 : Nat))], st.entry ∉ st.remaining)
    ∧ ((run_buffered_commands 10 (fun _ => true)
        [((5 : Int), (1 : Nat)), ((0 : Int), (0 : Nat))]).map
          (fun st => st.entry)).Nodup :=
  buffered_replay_once_ordered 10 (fun _ => true)
    [((5 : Int), (1 : Nat)), ((0 : Int), (0 : Nat))] (by decide)

/- ------------------------------------------------------------------ -/
/- retry decorator and retry_call_command (lines 104-193)               -/
/- ------------------------------------------------------------------ -/

/-- Outcome of a call as seen by its immediate caller: it resolved to a
status code, or an exception propagates out of it. -/
inductive CmdOutcome
  | status (s : UcStatus)
  | exn
deriving DecidableEq, Repr

/-- Result of one retry_call_command invocation with the non-bufferize
policy (lines 123-137): the outcome of the single invocation of the
wrapped command (exn when the command raised, in which case the exception
propagates to retry_call_command's caller), and how long the caller was
blocked waiting on the shielded connect task. -/
structure RetryCallRes where
  outcome : CmdOutcome
  waited : Nat
deriving DecidableEq, Repr

/-- retry_call_command with bufferize = False (lines 123-137): wait for
the in-flight connect task, but no longer than max(timeout - 1, 1)
(line 125); a TimeoutError from the bounded wait is swallowed (line 127)
and the command is invoked anyway (line 136).  connectDur is the time the
connect task still needs; ok tells whether the command invocation
succeeds. -/
def retry_call_command (timeout : Nat) (connectDur : Nat) (ok : Bool) :
    RetryCallRes :=
  let bound := max (timeout - 1) 1
  let waited := min connectDur bound
  if ok then { outcome := CmdOutcome.status UcStatus.OK, waited := waited }
  else { outcome := CmdOutcome.exn, waited := waited }

/-- Result of the full wrapper produced by the retry decorator. -/
structure WrapperRes where
  outcome : CmdOutcome
  waits : List Nat
  attempts : Nat
deriving DecidableEq, Repr

/-- The wrapper produced by the retry decorator (lines 150-191) with the
non-bufferize policy.  out1 and out2 tell whether the first and the
second invocation of the wrapped command succeed (false = the command
raises).  If the device is available the command runs directly (line
155) and a raise is caught (line 163) and retried once through
retry_call_command; if it is unavailable, the first attempt already goes
through retry_call_command (line 160), a raise there is caught (line
163) and retried through a second retry_call_command, and a raise of
that one yields BAD_REQUEST (line 185). -/
def retry_wrapper (timeout connectDur : Nat) (available : Bool)
    (out1 out2 : Bool) : WrapperRes :=
  if available then
    if out1 then
      { outcome := CmdOutcome.status UcStatus.OK, waits := [], attempts := 1 }
    else
      let r := retry_call_command timeout connectDur out2
      match r.outcome with
      | CmdOutcome.status s =>
          { outcome := CmdOutcome.status s, waits := [r.waited], attempts := 2 }
      | CmdOutcome.exn =>
          { outcome := CmdOutcome.status UcStatus.BAD_REQUEST,
            waits := [r.waited], attempts := 2 }
  else
    let r1 := retry_call_command timeout connectDur out1
    match r1.outcome with
    | CmdOutcome.status s =>
        { outcome := CmdOutcome.status s, waits := [r1.waited], attempts := 1 }
    | CmdOutcome.exn =>
        let r2 := retry_call_command timeout connectDur out2
        match r2.outcome with
        | CmdOutcome.status s =>
            { outcome := CmdOutcome.status s,
              waits := [r1.waited, r2.waited], attempts := 2 }
        | CmdOutcome.exn =>
            { outcome := CmdOutcome.status UcStatus.BAD_REQUEST,
              waits := [r1.waited, r2.waited], attempts := 2 }

/-- Claim C6, counterexample to the claim as stated: with the device
unavailable and a connect that needs 1000 time-units, the bounded wait
times out after max(5-1,1) = 4 time-units, yet the command is attempted
anyway and succeeds, so the wrapper returns OK — not the BAD_REQUEST the
claim requires on timeout. -/
theorem retry_timeout_counterexample :
    (retry_wrapper 5 1000 false true true).outcome
        = CmdOutcome.status UcStatus.OK
    ∧ (retry_wrapper 5 1000 false true true).waits = [4]
    ∧ (4 : Nat) < 1000
    ∧ UcStatus.OK ≠ UcStatus.BAD_REQUEST := by decide

/-- Claim C6, amended: for a wait-bounded (non-bufferize) command, no
exception ever escapes the wrapper (every outcome is a status code), the
command is attempted at most twice, each wait for the in-flight connect
blocks the caller at most max(timeout-1, 1) time-units, and the wrapper
returns BAD_REQUEST exactly when both command invocations raise — a wait
timeout alone does not produce BAD_REQUEST, since the command is then
attempted anyway. -/
theorem retry_wrapper_amended :
    ∀ (timeout connectDur : Nat) (available out1 out2 : Bool),
      (∃ s, (retry_wrapper timeout connectDur available out1 out2).outcome
          = CmdOutcome.status s)
      ∧ (retry_wrapper timeout connectDur available out1 out2).attempts ≤ 2
      ∧ (∀ w ∈ (retry_wrapper timeout connectDur available out1 out2).waits,
          w ≤ max (timeout - 1) 1)
      ∧ ((retry_wrapper timeout connectDur available out1 out2).outcome
            = CmdOutcome.status UcStatus.BAD_REQUEST
          ↔ out1 = false ∧ out2 = false) := by
  intro timeout connectDur available out1 out2
  cases available <;> cases out1 <;> cases out2 <;>
    simp [retry_wrapper, retry_call_command] <;> omega

/-- Witness for retry_wrapper_amended at a concrete input. -/
theorem retry_wrapper_amended_witness :
    (∃ s, (retry_wrapper 5 2 false false true).outcome = CmdOutcome.status s)
    ∧ (retry_wrapper 5 2 false false true).attempts ≤ 2
    ∧ (∀ w ∈ (retry_wrapper 5 2 false false true).waits, w ≤ max (5 - 1) 1)
    ∧ ((retry_wrapper 5 2 false false true).outcome
          = CmdOutcome.status UcStatus.BAD_REQUEST
        ↔ false = false ∧ true = false) :=
  retry_wrapper_amended 5 2 false false true

/- ------------------------------------------------------------------ -/
/- LGDevice.set_volume_level (lines 977-985)                            -/
/- ------------------------------------------------------------------ -/

/-- Result of the body of LGDevice.set_volume_level: the returned status,
the volume values sent to the transport via set_volume, and the volume
values carried by emitted UPDATE events. -/
structure VolumeCallRes where
  status : UcStatus
  transportCalls : List Int
  updateEvents : List Int
deriving DecidableEq, Repr

/-- Body of LGDevice.set_volume_level (lines 977-985): a null volume is
rejected with BAD_REQUEST before any transport contact; any other value
is sent to the transport via set_volume with no range validation
(rounding is the identity on the integer inputs modelled here), followed
by an UPDATE event. -/
def set_volume_level (volume : Option Int) : VolumeCallRes :=
  match volume with
  | none =>
      { status := UcStatus.BAD_REQUEST, transportCalls := [], updateEvents := [] }
  | some v =>
      { status := UcStatus.OK, transportCalls := [v], updateEvents := [v] }

/-- The decorated set_volume_level as seen by a caller when the device is
available: the retry wrapper invokes the body and then returns OK
unconditionally (lines 154-156), discarding the status the body
returned. -/
def set_volume_level_wrapped_available (volume : Option Int) :
    UcStatus × List Int :=
  let r := set_volume_level volume
  (UcStatus.OK, r.transportCalls)

/-- Claim C9, counterexample to the claim as stated: with the device
available, set_volume_level(150) is not rejected — the transport is
contacted with the out-of-range value 150 and the decorated method
returns OK, not a bad-request status. -/
theorem set_volume_counterexample :
    (set_volume_level_wrapped_available (some 150)).1 = UcStatus.OK
    ∧ (set_volume_level_wrapped_available (some 150)).2 = [150]
    ∧ UcStatus.OK ≠ UcStatus.BAD_REQUEST := by decide

/-- Claim C9, amended: only a null volume is rejected by the body of
set_volume_level, immediately and without contacting the transport (and
even then the decorated method returns OK because the retry wrapper
discards the body's status); any non-null value, in range or not, is
forwarded to the transport unvalidated. -/
theorem set_volume_level_amended :
    (set_volume_level none).status = UcStatus.BAD_REQUEST
    ∧ (set_volume_level none).transportCalls = []
    ∧ (set_volume_level none).updateEvents = []
    ∧ (set_volume_level_wrapped_available none).1 = UcStatus.OK
    ∧ (set_volume_level_wrapped_available none).2 = []
    ∧ ∀ v : Int, (set_volume_level (some v)).transportCalls = [v]
        ∧ (set_volume_level_wrapped_available (some v)).1 = UcStatus.OK :=
  ⟨rfl, rfl, rfl, rfl, rfl, fun _ => ⟨rfl, rfl⟩⟩

/- ------------------------------------------------------------------ -/
/- create_magic_packet (lines 196-208), wakeonlan (lines 846-876)       -/
/- ------------------------------------------------------------------ -/

/-- Value of one hexadecimal digit, as accepted by Python int(s, 16). -/
def hexDigit (c : Char) : Option Nat :=
  if '0' ≤ c ∧ c ≤ '9' then some (c.toNat - Char.toNat '0')
  else if 'a' ≤ c ∧ c ≤ 'f' then some (c.toNat - Char.toNat 'a' + 10)
  else if 'A' ≤ c ∧ c ≤ 'F' then some (c.toNat - Char.toNat 'A' + 10)
  else none

/-- Python int(s, 16), restricted to plain nonempty hexadecimal-digit
strings (the form taken by the byte fields of a hardware address). -/
def int_of_hex (cs : List Char) : Option Nat :=
  match cs with
  | [] => none
  | _ =>
    cs.foldl (fun acc c =>
      match acc, hexDigit c with
      | some a, some d => some (a * 16 + d)
      | _, _ => none) (some 0)

/-- Helper of splitColon: Python str.split with a colon separator,
with an accumulator for the chunk being read. -/
def splitColonAux (acc : List Char) : List Char → List (List Char)
  | [] => [acc.reverse]
  | c :: rest =>
    if c = ':' then acc.reverse :: splitColonAux [] rest
    else splitColonAux (c :: acc) rest

/-- Python mac_address.split(":") over the characters of the string;
empty chunks are preserved, as in Python. -/
def splitColon (s : String) : List (List Char) :=
  splitColonAux [] s.data

/-- struct.pack of one unsigned byte ("B"): raises (none) above 255. -/
def pack_byte (n : Nat) : Option Nat :=
  if n ≤ 255 then some n else none

/-- Parse the i-th colon-separated component of a hardware address as one
packed byte; none models the IndexError / ValueError / struct.error paths
of create_magic_packet. -/
def parseByteAt (mac : String) (i : Nat) : Option Nat := do
  let part ← (splitColon mac).get? i
  let v ← int_of_hex part
  pack_byte v

/-- create_magic_packet (lines 196-208): six 0xFF bytes followed by
sixteen repetitions of the six-byte packed hardware address; none when
the address does not parse (the corresponding Python call raises). -/
def create_magic_packet (mac : String) : Option (List Nat) := do
  let b0 ← parseByteAt mac 0
  let b1 ← parseByteAt mac 1
  let b2 ← parseByteAt mac 2
  let b3 ← parseByteAt mac 3
  let b4 ← parseByteAt mac 4
  let b5 ← parseByteAt mac 5
  return List.replicate 6 255 ++ (List.replicate 16 [b0, b1, b2, b3, b4, b5]).flatten

/-- Configuration fields consumed by LGDevice.wakeonlan. -/
structure WolConfig where
  mac_address : Option String
  mac_address2 : Option String
  broadcast : Option String
  wol_port : Option Nat

/-- LGDevice.wakeonlan (lines 846-876): build one magic packet per
configured hardware address (wired then wifi, at most two) and send each
exactly once via UDP broadcast to the configured or default broadcast
address and port; when no hardware address is configured, no socket is
opened and nothing is sent.  Returns the packets sent together with the
broadcast address and port used; none models an uncaught parse error
inside create_magic_packet. -/
def wakeonlan (cfg : WolConfig) : Option (List (List Nat) × String × Nat) := do
  let port := cfg.wol_port.getD 9
  let m1 ← match cfg.mac_address with
    | none => some ([] : List (List Nat))
    | some m => (create_magic_packet m).map (fun p => [p])
  let m2 ← match cfg.mac_address2 with
    | none => some ([] : List (List Nat))
    | some m => (create_magic_packet m).map (fun p => [p])
  let messages := m1 ++ m2
  let broadcast :=
    match cfg.broadcast with
    | some b => if b ≠ "255.255.255.255" then b else "<broadcast>"
    | none => "<broadcast>"
  return (messages, broadcast, port)

/-- Claim C10: for a hardware address whose six colon-separated components
parse as bytes, create_magic_packet yields six 0xFF bytes followed by
sixteen repetitions of the packed six-byte address — 102 bytes in all —
and wakeonlan sends exactly one such packet per configured hardware
address (none, one, or two) and sends nothing when no address is
configured. -/
theorem magic_packet_shape :
    (∀ (mac : String) (b0 b1 b2 b3 b4 b5 : Nat),
      parseByteAt mac 0 = some b0 → parseByteAt mac 1 = some b1 →
      parseByteAt mac 2 = some b2 → parseByteAt mac 3 = some b3 →
      parseByteAt mac 4 = some b4 → parseByteAt mac 5 = some b5 →
      create_magic_packet mac
        = some (List.replicate 6 255
            ++ (List.replicate 16 [b0, b1, b2, b3, b4, b5]).flatten)
      ∧ ∀ l, create_magic_packet mac = some l → l.length = 102)
    ∧ (∀ cfg : WolConfig, cfg.mac_address = none → cfg.mac_address2 = none →
        ∀ r, wakeonlan cfg = some r → r.1 = [])
    ∧ (∀ (cfg : WolConfig) (m1 : String) (p1 : List Nat),
        cfg.mac_address = some m1 → cfg.mac_address2 = none →
        create_magic_packet m1 = some p1 →
        ∀ r, wakeonlan cfg = some r → r.1 = [p1])
    ∧ (∀ (cfg : WolConfig) (m2 : String) (p2 : List Nat),
        cfg.mac_address = none → cfg.mac_address2 = some m2 →
        create_magic_packet m2 = some p2 →
        ∀ r, wakeonlan cfg = some r → r.1 = [p2])
    ∧ (∀ (cfg : WolConfig) (m1 m2 : String) (p1 p2 : List Nat),
        cfg.mac_address = some m1 → cfg.mac_address2 = some m2 →
        create_magic_packet m1 = some p1 → create_magic_packet m2 = some p2 →
        ∀ r, wakeonlan cfg = some r → r.1 = [p1, p2] ∧ r.1.length ≤ 2) := by
  refine ⟨?_, ?_, ?_, ?_, ?_⟩
  · intro mac b0 b1 b2 b3 b4 b5 h0 h1 h2 h3 h4 h5
    have heq : create_magic_packet mac
        = some (List.replicate 6 255
            ++ (List.replicate 16 [b0, b1, b2, b3, b4, b5]).flatten) := by
      simp [create_magic_packet, h0, h1, h2, h3, h4, h5]
    refine ⟨heq, ?_⟩
    intro l hl
    rw [heq] at hl
    have : l = List.replicate 6 255
        ++ (List.replicate 16 [b0, b1, b2, b3, b4, b5]).flatten :=
      (Option.some_injective _ hl).symm
    subst this
    rfl
  · intro cfg hm1 hm2 r hr
    simp [wakeonlan, hm1, hm2] at hr
    simp [← hr]
  · intro cfg m1 p1 hm1 hm2 hp1 r hr
    simp [wakeonlan, hm1, hm2, hp1] at hr
    simp [← hr]
  · intro cfg m2 p2 hm1 hm2 hp2 r hr
    simp [wakeonlan, hm1, hm2, hp2] at hr
    simp [← hr]
  · intro cfg m1 m2 p1 p2 hm1 hm2 hp1 hp2 r hr
    simp [wakeonlan, hm1, hm2, hp1, hp2] at hr
    simp [← hr]

/-- Witness for magic_packet_shape on a concrete hardware address. -/
theorem magic_packet_shape_witness :
    create_magic_packet ("12:34:56:78:9a:bc")
      = some (List.replicate 6 255
          ++ (List.replicate 16 [18, 52, 86, 120, 154, 188]).flatten)
    ∧ (∀ r, wakeonlan ({ mac_address := none, mac_address2 := none, broadcast := none, wol_port := none } : WolConfig) = some r → r.1 = []) :=
  ⟨(magic_packet_shape.1 ("12:34:56:78:9a:bc") 18 52 86 120 154 188
      (by decide) (by decide) (by decide) (by decide) (by decide) (by decide)).1,
   magic_packet_shape.2.1
      ({ mac_address := none, mac_address2 := none, broadcast := none, wol_port := none } : WolConfig) rfl rfl⟩

/- ------------------------------------------------------------------ -/
/- State snapshot and differ: LGDevice._update_sources (314-361) and    -/
/- LGDevice._update_states (363-457)                                    -/
/- ------------------------------------------------------------------ -/

/-- Lexicographic comparison on character lists, the order used by Python
sorted on source names. -/
def strLeAux : List Char → List Char → Bool
  | [], _ => true
  | _ :: _, [] => false
  | x :: xs, y :: ys => if x = y then strLeAux xs ys else decide (x < y)

/-- Lexicographic comparison on strings. -/
def strLeB (a b : String) : Bool := strLeAux a.data b.data

/-- Insertion step of the sort modelling Python sorted on names. -/
def insertStr (x : String) : List String → List String
  | [] => [x]
  | y :: ys => if strLeB x y then x :: y :: ys else y :: insertStr x ys

/-- Python sorted on a list of names. -/
def sortStrings : List String → List String
  | [] => []
  | x :: xs => insertStr x (sortStrings xs)

/-- One application as reported by the TV (tv_state.apps values). -/
structure AppInfo where
  id : String
  title : String
  largeIcon : String
  icon : String
deriving DecidableEq, Repr

/-- One physical input as reported by the TV (tv_state.inputs values). -/
structure InputInfo where
  id : String
  appId : String
deriving DecidableEq, Repr

/-- One entry of the merged source dict kept in LGDevice._sources: the
underlying id and the isApp tag written at lines 326, 334 and 346. -/
structure SrcEntry where
  id : String
  isApp : Bool
deriving DecidableEq, Repr

/-- Python dict assignment on an association list: replace in place when
the key already exists, else append. -/
def upsert (k : String) (v : SrcEntry) :
    List (String × SrcEntry) → List (String × SrcEntry)
  | [] => [(k, v)]
  | (k2, v2) :: rest =>
    if k2 = k then (k, v) :: rest else (k2, v2) :: upsert k v rest

/-- One full device-state report: everything _update_states reads from
the transport, with the power state already forced through the
authoritative get_power_state query of lines 382-389 (is_on is whether
that query reported the Active state). -/
structure TvReport where
  apps : List AppInfo
  inputs : List InputInfo
  current_app_id : Option String
  muted : Bool
  volume : Option Int
  sound_output : Option String
  current_channel : Option String
  is_on : Bool
deriving DecidableEq, Repr

/-- The mutable snapshot fields of LGDevice read and written by the
differ.  media_state mirrors the media state set by the websocket
callback: none when absent, otherwise its optional playstate field. -/
structure DeviceState where
  sources : List (String × SrcEntry)
  active_source : Option String
  attr_state : UcState
  is_volume_muted : Bool
  volume : Int
  media_type : MediaTy
  media_title : String
  media_image_url : String
  sound_output : Option String
  media_state : Option (Option String)
deriving DecidableEq, Repr

/-- The updated_data dict assembled by one _update_states call: one field
per attribute key that can be emitted, none meaning absent. -/
structure Delta where
  source_list : Option (List String) := none
  source : Option (Option String) := none
  sensor_input_source : Option (Option String) := none
  state : Option UcState := none
  muted : Option Bool := none
  sensor_muted : Option String := none
  volume : Option Int := none
  media_type : Option MediaTy := none
  media_title : Option String := none
  media_image_url : Option String := none
  sound_mode : Option (Option String) := none
deriving DecidableEq, Repr

/-- Emptiness of the updated_data dict, tested at line 455 before the
UPDATE event is emitted. -/
def Delta.isEmpty (d : Delta) : Bool := decide (d = ({} : Delta))

/-- LG_SOUND_OUTPUTS (const.py): internal sound-output ids to display
names. -/
def LG_SOUND_OUTPUTS : List (String × String) :=
  [("tv_speaker", "Internal TV speaker"),
   ("external_optical", "Optical"),
   ("external_arc", "HDMI Arc"),
   ("lineout", "Line out"),
   ("headphone", "Headphones"),
   ("external_speaker", "Audio out (optical/hdmi arc)"),
   ("tv_external_speaker", "TV speaker and optical"),
   ("tv_speaker_headphone", "TV speaker and headphones"),
   ("bt_soundbar", "Bluetooth soundbar and bluetooth devices"),
   ("soundbar", "Soundbar optical")]

/-- dict.get on an association list of strings. -/
def lookupStr (k : String) : List (String × String) → Option String
  | [] => none
  | (k2, v) :: rest => if k2 = k then some v else lookupStr k rest

/-- The sound_output property (lines 787-797): none when no sound output
is known, else its display name from LG_SOUND_OUTPUTS (none when
unknown). -/
def sound_output_prop (so : Option String) : Option String :=
  match so with
  | none => none
  | some s => lookupStr s LG_SOUND_OUTPUTS

/-- Modelled from the spec: the LG_PLAYSTATES mapping imported by lg.py
from const.py is absent from the provided sources; following the spec's
playback states (playing, paused), it maps the reported playstate string
to a driver state, unknown strings falling back (at line 406) to the
States.ON default. -/
def LG_PLAYSTATES : String → Option UcState
  | "playing" => some UcState.PLAYING
  | "paused" => some UcState.PAUSED
  | _ => none

/-- The source_list property (lines 708-717): physical-input names
sorted, then application names sorted. -/
def source_list_prop (sources : List (String × SrcEntry)) : List String :=
  sortStrings ((sources.filter (fun p => !p.2.isApp)).map Prod.fst)
    ++ sortStrings ((sources.filter (fun p => p.2.isApp)).map Prod.fst)

/-- Accumulator of the merge loops of _update_sources. -/
structure MergeAcc where
  sources : List (String × SrcEntry)
  active : Option String
  foundLiveTv : Bool
deriving DecidableEq, Repr

/-- The apps loop of _update_sources (lines 320-326): record Live TV when
seen, detect the active application, and store each app keyed by its
title with the isApp tag set. -/
def mergeApps (cai : Option String) (acc : MergeAcc) : List AppInfo → MergeAcc
  | [] => acc
  | app :: rest =>
    mergeApps cai
      ⟨upsert app.title ⟨app.id, true⟩ acc.sources,
       (if some app.id = cai then some app.title else acc.active),
       (acc.foundLiveTv || decide (app.id = LIVE_TV_APP_ID))⟩
      rest

/-- The inputs loop of _update_sources (lines 328-334): record Live TV
when seen, detect the active input, and store each input keyed by its id
with the isApp tag cleared. -/
def mergeInputs (cai : Option String) (acc : MergeAcc) : List InputInfo → MergeAcc
  | [] => acc
  | inp :: rest =>
    mergeInputs cai
      ⟨upsert inp.id ⟨inp.id, false⟩ acc.sources,
       (if some inp.appId = cai then some inp.id else acc.active),
       (acc.foundLiveTv || decide (inp.appId = LIVE_TV_APP_ID))⟩
      rest

/-- Result of one _update_sources call: the new sources dict and active
source, and the delta entries it contributed to updated_data. -/
structure UpdSourcesRes where
  sources : List (String × SrcEntry)
  active_source : Option String
  d_source_list : Option (List String)
  d_source : Option (Option String)
deriving DecidableEq, Repr

/-- LGDevice._update_sources (lines 314-361): merge apps and inputs into
one keyed collection; when the merged collection is empty but a previous
non-empty collection exists, retain the previous collection (line 337);
otherwise synthesize the Live TV entry when missing (lines 341-346); emit
a SOURCE_LIST delta when the display source list differs from the sorted
keys of the previous collection (lines 348-355); emit an active-source
delta when the active identifier changed (lines 357-361). -/
def update_sources (tv : TvReport) (cur : List (String × SrcEntry))
    (curActive : Option String) : UpdSourcesRes :=
  let acc0 : MergeAcc := ⟨[], none, false⟩
  let accA := mergeApps tv.current_app_id acc0 tv.apps
  let accB := mergeInputs tv.current_app_id accA tv.inputs
  let sa :=
    if accB.sources.isEmpty && !cur.isEmpty then (cur, accB.active)
    else if !accB.foundLiveTv then
      (upsert ("Live TV") ⟨LIVE_TV_APP_ID, true⟩ accB.sources,
       (if tv.current_app_id = some LIVE_TV_APP_ID then some ("Live TV")
        else accB.active))
    else (accB.sources, accB.active)
  let sources2 := sa.1
  let active2 := sa.2
  let dsl :=
    if !sources2.isEmpty then
      let newList := source_list_prop sources2
      let oldList := if !cur.isEmpty then sortStrings (cur.map Prod.fst) else []
      if newList ≠ oldList then some newList else none
    else none
  if active2 ≠ curActive then
    ⟨sources2, active2, dsl, some active2⟩
  else
    ⟨sources2, curActive, dsl, none⟩

/-- Truthiness of an optional string, as Python tests it. -/
def truthyStr (so : Option String) : Bool :=
  match so with
  | none => false
  | some s => !(decide (s = ""))

/-- Whether a string starts with http (line 443). -/
def startsWithHttp (s : String) : Bool :=
  match s.data with
  | 'h' :: 't' :: 't' :: 'p' :: _ => true
  | _ => false

/-- Icon selection of lines 440-448: the current app's largeIcon, or its
icon when the largeIcon is not an http reference; empty when no current
app is in the app dict. -/
def media_image_of (apps : List AppInfo) (cai : Option String) : String :=
  match cai with
  | none => ""
  | some i =>
    match apps.find? (fun a => a.id == i) with
    | none => ""
    | some a => if startsWithHttp a.largeIcon then a.largeIcon else a.icon

/-- Result of one _update_states call: the new snapshot, the updated_data
delta, and whether an UPDATE event was emitted (line 455-457). -/
structure UpdStatesRes where
  state : DeviceState
  delta : Delta
  emitted : Bool
deriving DecidableEq, Repr

/-- LGDevice._update_states (lines 363-457): run _update_sources, then
compare each snapshot field against the report, recording changed fields
into updated_data and emitting an UPDATE event when it is non-empty.
dataGiven tells whether the data parameter was passed (line 391); the
get_sound_output query of line 397 is modelled as returning the same
sound output the report carries. -/
def update_states (tv : TvReport) (dataGiven : Bool) (st : DeviceState) :
    UpdStatesRes :=
  let us := update_sources tv st.sources st.active_source
  let d0 : Delta :=
    { source_list := us.d_source_list, source := us.d_source,
      sensor_input_source := us.d_source }
  let p1 : Option String × Delta :=
    if dataGiven && truthyStr tv.sound_output then
      if st.sound_output ≠ tv.sound_output then
        (tv.sound_output,
         { d0 with sound_mode := some (sound_output_prop tv.sound_output) })
      else (st.sound_output, d0)
    else if st.sound_output = none then
      (tv.sound_output,
       if truthyStr tv.sound_output then
         { d0 with sound_mode := some (sound_output_prop tv.sound_output) }
       else d0)
    else (st.sound_output, d0)
  let so1 := p1.1
  let state0 := if tv.is_on then UcState.ON else UcState.OFF
  let state1 :=
    match st.media_state with
    | none => state0
    | some ps => (LG_PLAYSTATES (ps.getD ("playing"))).getD UcState.ON
  let p2 : UcState × Delta :=
    if state1 ≠ st.attr_state then (state1, { p1.2 with state := some state1 })
    else (st.attr_state, p1.2)
  let p3 : Bool × Delta :=
    if tv.muted ≠ st.is_volume_muted then
      (tv.muted,
       { p2.2 with muted := some tv.muted,
                   sensor_muted := some (if tv.muted then "on" else "off") })
    else (st.is_volume_muted, p2.2)
  let p4 : Int × Delta :=
    match tv.volume with
    | none => (st.volume, p3.2)
    | some v =>
      if v ≠ st.volume then (v, { p3.2 with volume := some v })
      else (st.volume, p3.2)
  let mt :=
    if tv.current_app_id = some LIVE_TV_APP_ID then MediaTy.TVSHOW
    else MediaTy.VIDEO
  let p5 : MediaTy × Delta :=
    if mt ≠ st.media_type then (mt, { p4.2 with media_type := some mt })
    else (st.media_type, p4.2)
  let title :=
    if tv.current_app_id = some LIVE_TV_APP_ID then
      match tv.current_channel with
      | some t => t
      | none => ""
    else ""
  let p6 : String × Delta :=
    if title ≠ st.media_title then (title, { p5.2 with media_title := some title })
    else (st.media_title, p5.2)
  let url := media_image_of tv.apps tv.current_app_id
  let p7 : String × Delta :=
    if url ≠ st.media_image_url then
      (url, { p6.2 with media_image_url := some url })
    else (st.media_image_url, p6.2)
  let d8 :=
    if so1 ≠ tv.sound_output then
      { p7.2 with sound_mode := some (sound_output_prop tv.sound_output) }
    else p7.2
  { state :=
      { sources := us.sources, active_source := us.active_source,
        attr_state := p2.1, is_volume_muted := p3.1, volume := p4.1,
        media_type := p5.1, media_title := p6.1, media_image_url := p7.1,
        sound_output := tv.sound_output, media_state := st.media_state },
    delta := d8,
    emitted := !d8.isEmpty }

/-- Failing input for claim C7: a state report with empty apps and inputs
collections. -/
def c7_report : TvReport := ⟨[], [], none, false, none, none, none, false⟩

/-- Failing input for claim C7: the previous source collection, holding
one application and one physical input. -/
def c7_prev : List (String × SrcEntry) :=
  [("Amazon", ⟨"amazon.app", true⟩), ("HDMI", ⟨"HDMI", false⟩)]

/-- Claim C7: on an empty report after a non-empty snapshot the previous
source collection is indeed retained unchanged, but — against the claim —
a SOURCE_LIST delta IS emitted, because line 353 compares the display
list (inputs sorted, then apps sorted: HDMI, Amazon) against the plainly
sorted previous keys (Amazon, HDMI), which differ although the sources
are unchanged.  No active-source delta is emitted. -/
theorem source_retention_emits_delta :
    (update_sources c7_report c7_prev none).sources = c7_prev
    ∧ (update_sources c7_report c7_prev none).d_source_list
        = some [("HDMI" : String), "Amazon"]
    ∧ (update_sources c7_report c7_prev none).d_source = none := by decide

/-- Failing input for claim C8: a report with one application (Amazon)
and one physical input (HDMI), the TV on, volume 7, the internal TV
speaker active, and no current application. -/
def c8_report : TvReport :=
  ⟨[⟨"amazon.app", "Amazon", "", ""⟩], [⟨"HDMI", "hdmi.app"⟩],
   none, false, some 7, some ("tv_speaker"), none, true⟩

/-- Initial snapshot of a fresh device handle, matching the constructor
defaults of LGDevice (lines 249-268). -/
def c8_init : DeviceState :=
  ⟨[], none, UcState.OFF, false, 0, MediaTy.VIDEO, "", "", none, none⟩

/-- Claim C8: feeding the identical full report twice is NOT idempotent —
the second call still emits a non-empty delta carrying SOURCE_LIST,
because the comparison at line 353 never agrees when the snapshot holds
both applications and inputs (display order HDMI, Amazon, Live TV versus
sorted keys Amazon, HDMI, Live TV); every other field stabilises (the
second call leaves the snapshot unchanged) and no active-source delta is
emitted without a change of active identifier. -/
theorem state_diff_not_idempotent :
    (update_states c8_report true
        (update_states c8_report true c8_init).state).delta.source_list
      = some [("HDMI" : String), "Amazon", "Live TV"]
    ∧ (update_states c8_report true
        (update_states c8_report true c8_init).state).delta ≠ ({} : Delta)
    ∧ (update_states c8_report true
        (update_states c8_report true c8_init).state).emitted = true
    ∧ (update_states c8_report true
        (update_states c8_report true c8_init).state).delta.source = none
    ∧ (update_states c8_report true
        (update_states c8_report true c8_init).state).state
      = (update_states c8_report true c8_init).state := by decide
